import Mathlib

/-!
Shallow embedding of the Teleport RDP client library
(src/lib/srv/desktop/rdp/rdpclient/src/lib.rs).

The Rust code glues a Go host process to the external rdp-rs protocol
library. Effects of the external library (TCP, X.224, MCS, security
handshake, channel-client codecs) are modelled as explicit environment
records of result-valued functions; the control flow of the Rust
functions in lib.rs is translated directly. Types whose defining modules
(rdpdr, cliprdr) are not part of the provided source are modelled from
the specification and marked as such in their doc comments.
-/

/-- CGOErrCode from lib.rs: `ErrCodeSuccess = 0`, `ErrCodeFailure = 1`. -/
inductive CGOErrCode
  | ErrCodeSuccess
  | ErrCodeFailure
deriving DecidableEq, Repr

/-- The kind of a std::io::Error, reduced to the distinction lib.rs makes:
`UnexpectedEof` versus everything else. -/
inductive IoErrorKind
  | UnexpectedEof
  | OtherErrorKind
deriving DecidableEq, Repr

/-- A std::io::Error, carrying only its kind. -/
structure IoError where
  kind : IoErrorKind
deriving DecidableEq, Repr

/-- RdpErrorKind from the rdp-rs error model; lib.rs only constructs
`UnexpectedType`. -/
inductive RdpErrorKind
  | UnexpectedType
  | OtherKind
deriving DecidableEq, Repr

/-- rdp::model::error::Error as used by lib.rs: an I/O error, a protocol
error (`RdpError::RdpError(RdpProtocolError::new(kind, msg))`), or a
`TryError` message. -/
inductive RdpError
  | Io (e : IoError)
  | RdpError (kind : RdpErrorKind) (message : String)
  | TryError (message : String)
deriving DecidableEq, Repr

/-- ConnectError from lib.rs. -/
inductive ConnectError
  | Tcp (e : IoError)
  | Rdp (e : RdpError)
  | InvalidAddr
deriving DecidableEq, Repr

/-- The `From<IoError> for ConnectError` instance in lib.rs. -/
def connectErrorFromIo (e : IoError) : ConnectError := ConnectError.Tcp e

/-- The `From<RdpError> for ConnectError` instance in lib.rs. -/
def connectErrorFromRdp (e : RdpError) : ConnectError := ConnectError.Rdp e

/-- KeyboardLayout from rdp-rs gcc; lib.rs always passes `US`. -/
inductive KeyboardLayout
  | US
  | OtherLayout
deriving DecidableEq, Repr

/-- TdpErrCode from lib.rs. -/
inductive TdpErrCode
  | Nil
  | Failed
  | DoesNotExist
  | AlreadyExists
deriving DecidableEq, Repr

/-- FileType from lib.rs. -/
inductive FileType
  | File
  | Directory
deriving DecidableEq, Repr

/-- Modelled from the spec: `UnixPath` (module rdpdr::path, not under src/):
a forward-slash-separated byte string. -/
structure UnixPath where
  bytes : List Nat
deriving DecidableEq, Repr

/-- Modelled from the spec: `UnixPath::to_cstring` (module rdpdr::path, not
under src/): encoding as a null-terminated C string, which fails exactly when
the path contains an embedded NUL byte. -/
def UnixPath.to_cstring (p : UnixPath) : Option (List Nat) :=
  if 0 ∈ p.bytes then none else some (p.bytes ++ [0])

/-! ## PIN generation

`connect_rdp_inner` computes `format!("{:08}", rng.gen_range(0i32..=99999999i32))`.
`pinString n` is that decimal formatting with zero-padding to width 8: the
decimal digit characters of `n` left-padded with the `0` character. (For
`n = 0` Rust renders `"0"` and pads to `"00000000"`; padding the empty digit
list yields the same string.) -/

/-- The decimal digit characters of `n`, most significant first. -/
def decimalChars (n : Nat) : List Char :=
  ((Nat.digits 10 n).map fun d => Char.ofNat (48 + d)).reverse

/-- Rust formatting `format!("{:08}", n)` from connect_rdp_inner: decimal digits of `n`
left-padded with zeros to a minimum width of 8. -/
def pinString (n : Nat) : String :=
  let ds := decimalChars n
  String.mk (List.replicate (8 - ds.length) '0' ++ ds)

/-- Holds when every character of `s` is a decimal digit (`s.data.all Char.isDigit`). -/
def allDigits (s : String) : Bool :=
  s.data.all Char.isDigit

/-! ## Connection bring-up (connect_rdp_inner) -/

/-- A resolved socket address (opaque). -/
structure SockAddr where
  addr : Nat
deriving DecidableEq, Repr

/-- The arguments lib.rs passes to `mcs.connect`. -/
structure McsConnectArgs where
  conference : String
  screen_width : Nat
  screen_height : Nat
  layout : KeyboardLayout
  channels : List String
deriving DecidableEq, Repr

/-- The constant `RDPSND_CHANNEL_NAME` from lib.rs. -/
def RDPSND_CHANNEL_NAME : String := "rdpsnd"

/-- Modelled from the spec: `rdpdr::CHANNEL_NAME` (module rdpdr, not under
src/): the drive-redirection static channel, named `rdpdr`. -/
def rdpdrChannelName : String := "rdpdr"

/-- Modelled from the spec: `cliprdr::CHANNEL_NAME` (module cliprdr, not
under src/): the clipboard static channel, named `cliprdr`. -/
def cliprdrChannelName : String := "cliprdr"

/-- ConnectParams from lib.rs. -/
structure ConnectParams where
  username : String
  cert_der : List Nat
  key_der : List Nat
  screen_width : Nat
  screen_height : Nat
  allow_clipboard : Bool
  allow_directory_sharing : Bool

/-- The static channel list built in connect_rdp_inner: `[rdpdr, rdpsnd]`,
with `cliprdr` pushed when `allow_clipboard`. -/
def staticChannels (params : ConnectParams) : List String :=
  [rdpdrChannelName, RDPSND_CHANNEL_NAME]
    ++ (if params.allow_clipboard then [cliprdrChannelName] else [])

/-- The full argument record of the `mcs.connect` call in connect_rdp_inner. -/
def mcsArgs (params : ConnectParams) : McsConnectArgs :=
  { conference := "rdp-rs"
    screen_width := params.screen_width
    screen_height := params.screen_height
    layout := KeyboardLayout.US
    channels := staticChannels params }

/-- Outcomes of the external calls made by connect_rdp_inner, one field per
call site, in bring-up order. `toSocketAddrs` is `addr.to_socket_addrs()`;
`connectTimeout` is `TcpStream::connect_timeout` (returning the raw fd);
`setReadTimeout` takes the timeout in seconds (`none` clears it);
`x224Connect`, `mcsConnect` (returning user id and global channel id) and
`secConnect` (taking domain, username and password/PIN) are the rdp-rs
handshake stages; `pinDraw` is the value produced by
`rng.gen_range(0i32..=99999999i32)`. -/
structure ConnectEnv where
  toSocketAddrs : Except IoError (List SockAddr)
  connectTimeout : SockAddr → Except IoError Nat
  setReadTimeout : Option Nat → Except IoError Unit
  x224Connect : Except RdpError Unit
  mcsConnect : McsConnectArgs → Except RdpError (Nat × Nat)
  secConnect : String → String → String → Except RdpError Unit
  pinDraw : Nat

/-- The `global` channel client state created in connect_rdp_inner. -/
structure GlobalClient where
  userId : Nat
  globalChannelId : Nat
  width : Nat
  height : Nat
deriving DecidableEq, Repr

/-- The rdpdr channel client state created in connect_rdp_inner (the channel
internals live in the rdpdr module; lib.rs supplies the smartcard PIN and the
directory-sharing flag). -/
structure RdpdrClient where
  pin : String
  allow_directory_sharing : Bool
deriving DecidableEq, Repr

/-- Modelled from the spec: cliprdr channel-local state (module cliprdr, not
under src/): the last local payload staged when the host copies data. -/
structure CliprdrClient where
  staged : Option String
deriving DecidableEq, Repr

/-- RdpClient from lib.rs: the protocol stack and the channel clients.
`cliprdr` is `some` exactly when the clipboard was enabled at connect. -/
structure RdpClient where
  global : GlobalClient
  rdpdr : RdpdrClient
  cliprdr : Option CliprdrClient
deriving DecidableEq, Repr

/-- Client from lib.rs: the session handle returned to the host. -/
structure Client where
  rdpClient : RdpClient
  tcp_fd : Nat
  go_ref : Nat
deriving DecidableEq, Repr

/-- ClientOrError from lib.rs. A null client pointer is `none`. -/
structure ClientOrError where
  client : Option Client
  err : CGOErrCode
deriving DecidableEq, Repr

/-- The `From<Result<Client, ConnectError>> for ClientOrError` instance in
lib.rs. -/
def clientOrErrorFrom : Except ConnectError Client → ClientOrError
  | Except.ok c => { client := some c, err := CGOErrCode.ErrCodeSuccess }
  | Except.error _ => { client := none, err := CGOErrCode.ErrCodeFailure }

/-- The result of running connect_rdp_inner, together with the argument
record of the `mcs.connect` call when that call was reached. -/
structure ConnectRun where
  result : Except ConnectError Client
  mcsCalledWith : Option McsConnectArgs

/-- connect_rdp_inner from lib.rs: address resolution, TCP connect with a
5-second deadline, 10-second handshake read timeout, X.224 negotiation, MCS
connect, PIN generation, security handshake, channel-client creation,
read-timeout clearing, session-handle construction. Each `?` in the source
becomes a match whose error branch aborts with the converted ConnectError. -/
def connect_rdp_inner (env : ConnectEnv) (go_ref : Nat) (params : ConnectParams) :
    ConnectRun :=
  match env.toSocketAddrs with
  | Except.error e => { result := Except.error (connectErrorFromIo e), mcsCalledWith := none }
  | Except.ok addrs =>
    match addrs.head? with
    | none => { result := Except.error ConnectError.InvalidAddr, mcsCalledWith := none }
    | some addr =>
      match env.connectTimeout addr with
      | Except.error e => { result := Except.error (connectErrorFromIo e), mcsCalledWith := none }
      | Except.ok tcp_fd =>
        match env.setReadTimeout (some 10) with
        | Except.error e => { result := Except.error (connectErrorFromIo e), mcsCalledWith := none }
        | Except.ok _ =>
          match env.x224Connect with
          | Except.error e => { result := Except.error (connectErrorFromRdp e), mcsCalledWith := none }
          | Except.ok _ =>
            match env.mcsConnect (mcsArgs params) with
            | Except.error e =>
              { result := Except.error (connectErrorFromRdp e)
                mcsCalledWith := some (mcsArgs params) }
            | Except.ok ids =>
              let pin := pinString env.pinDraw
              match env.secConnect "." params.username pin with
              | Except.error e =>
                { result := Except.error (connectErrorFromRdp e)
                  mcsCalledWith := some (mcsArgs params) }
              | Except.ok _ =>
                let globalClient : GlobalClient :=
                  { userId := ids.1, globalChannelId := ids.2
                    width := params.screen_width, height := params.screen_height }
                let rdpdrClient : RdpdrClient :=
                  { pin := pin, allow_directory_sharing := params.allow_directory_sharing }
                let clip : Option CliprdrClient :=
                  if params.allow_clipboard then some { staged := none } else none
                match env.setReadTimeout none with
                | Except.error e =>
                  { result := Except.error (connectErrorFromIo e)
                    mcsCalledWith := some (mcsArgs params) }
                | Except.ok _ =>
                  { result := Except.ok
                      { rdpClient := { global := globalClient, rdpdr := rdpdrClient, cliprdr := clip }
                        tcp_fd := tcp_fd
                        go_ref := go_ref }
                    mcsCalledWith := some (mcsArgs params) }

/-- Every fallible step of bring-up succeeded, in source order. -/
def allStepsOk (env : ConnectEnv) (params : ConnectParams) : Prop :=
  ∃ addrs addr fd ids,
    env.toSocketAddrs = Except.ok addrs ∧
    addrs.head? = some addr ∧
    env.connectTimeout addr = Except.ok fd ∧
    env.setReadTimeout (some 10) = Except.ok () ∧
    env.x224Connect = Except.ok () ∧
    env.mcsConnect (mcsArgs params) = Except.ok ids ∧
    env.secConnect "." params.username (pinString env.pinDraw) = Except.ok () ∧
    env.setReadTimeout none = Except.ok ()

/-! ## Pump loop (read_rdp_output / read_rdp_output_inner) -/

/-- BitmapEvent from rdp-rs, with the result of `decompress()` recorded so
that `CGOBitmap::try_from` is a pure function of the event. -/
structure BitmapEvent where
  dest_left : Nat
  dest_top : Nat
  dest_right : Nat
  dest_bottom : Nat
  is_compress : Bool
  data : List Nat
  decompressResult : Except RdpError (List Nat)
deriving Repr

/-- CGOBitmap from lib.rs (pointer/length/capacity collapsed to the byte
payload). -/
structure CGOBitmap where
  dest_left : Nat
  dest_top : Nat
  dest_right : Nat
  dest_bottom : Nat
  data : List Nat
deriving DecidableEq, Repr

/-- The conversion `CGOBitmap::try_from(BitmapEvent)` from lib.rs: copy the geometry, then
take `decompress()` when compressed and the raw data otherwise. -/
def cgoBitmapTryFrom (e : BitmapEvent) : Except RdpError CGOBitmap :=
  match (if e.is_compress then e.decompressResult else Except.ok e.data) with
  | Except.ok d =>
    Except.ok
      { dest_left := e.dest_left, dest_top := e.dest_top
        dest_right := e.dest_right, dest_bottom := e.dest_bottom, data := d }
  | Except.error er => Except.error er

/-- RdpEvent from rdp-rs as seen by the pump callback: a bitmap, or any
other event (ignored with a debug log). -/
inductive RdpEvent
  | Bitmap (b : BitmapEvent)
  | OtherEvent
deriving Repr

/-- State threaded through the pump callback of read_rdp_output_inner: the
`err` accumulator and the list of bitmaps actually forwarded to
`handle_bitmap`. -/
structure PumpCallbackState where
  err : CGOErrCode
  forwarded : List CGOBitmap
deriving DecidableEq, Repr

/-- One invocation of the callback passed to `rdp_client.read` in
read_rdp_output_inner: when the previous `handle_bitmap` calls all
succeeded, a bitmap event is converted (a conversion error only logs and
returns) and forwarded, recording the host result in `err`; once `err` is a
failure every later event is skipped. -/
def pumpCallbackStep (handleBitmapFn : CGOBitmap → CGOErrCode)
    (st : PumpCallbackState) (ev : RdpEvent) : PumpCallbackState :=
  if st.err = CGOErrCode.ErrCodeSuccess then
    match ev with
    | RdpEvent.Bitmap b =>
      match cgoBitmapTryFrom b with
      | Except.ok cb => { err := handleBitmapFn cb, forwarded := st.forwarded ++ [cb] }
      | Except.error _ => st
    | RdpEvent.OtherEvent => st
  else st

/-- The callback state after one `rdp_client.read` call that delivered
`events`. -/
def pumpCallbackRun (handleBitmapFn : CGOBitmap → CGOErrCode)
    (events : List RdpEvent) : PumpCallbackState :=
  events.foldl (pumpCallbackStep handleBitmapFn)
    { err := CGOErrCode.ErrCodeSuccess, forwarded := [] }

/-- The observable outcome of one `rdp_client.read` call from the pump loop:
the events delivered to the callback and the returned RdpResult. -/
structure ReadOutcome where
  events : List RdpEvent
  result : Except RdpError Unit
deriving Repr

/-- The error text `format!("RDP read failed: {:?}", e)`. -/
def rdpReadFailedMsg (e : RdpError) : String :=
  "RDP read failed: " ++ toString (repr e)

/-- read_rdp_output_inner from lib.rs, run against a trace of read
outcomes (one per iteration in which `wait_for_fd` reported readiness; an
exhausted trace is `wait_for_fd` returning false). Per iteration: an
`UnexpectedEof` I/O error returns `None`; any other error returns the
formatted error string; otherwise a recorded `handle_bitmap` failure
returns the fixed message, and the loop continues. -/
def read_rdp_output_inner (handleBitmapFn : CGOBitmap → CGOErrCode) :
    List ReadOutcome → Option String
  | [] => none
  | o :: rest =>
    let st := pumpCallbackRun handleBitmapFn o.events
    match o.result with
    | Except.error (RdpError.Io ioe) =>
      if ioe.kind = IoErrorKind.UnexpectedEof then none
      else some (rdpReadFailedMsg (RdpError.Io ioe))
    | Except.error e => some (rdpReadFailedMsg e)
    | Except.ok _ =>
      if st.err ≠ CGOErrCode.ErrCodeSuccess then
        some "failed forwarding RDP bitmap frame"
      else read_rdp_output_inner handleBitmapFn rest

/-- read_rdp_output from lib.rs: a null pointer is a failure; otherwise the
inner loop returning an error string is a failure and a clean `None` exit is
a success. -/
def read_rdp_output (handleBitmapFn : CGOBitmap → CGOErrCode)
    (clientPtr : Option Client) (trace : List ReadOutcome) : CGOErrCode :=
  match clientPtr with
  | none => CGOErrCode.ErrCodeFailure
  | some _ =>
    match read_rdp_output_inner handleBitmapFn trace with
    | some _ => CGOErrCode.ErrCodeFailure
    | none => CGOErrCode.ErrCodeSuccess

/-- A pump iteration that neither errors nor records a bitmap-forwarding
failure, so the loop proceeds past it. -/
def cleanIteration (handleBitmapFn : CGOBitmap → CGOErrCode) (o : ReadOutcome) : Prop :=
  o.result = Except.ok () ∧
    (pumpCallbackRun handleBitmapFn o.events).err = CGOErrCode.ErrCodeSuccess

/-! ## Channel dispatch (RdpClient::read) -/

/-- An artifact a channel client produces while handling a PDU: a reply PDU
written to the transport, or a call out to the host. -/
inductive ChannelOutput
  | pdu (bytes : List Nat)
  | hostCall (tag : String)
deriving DecidableEq, Repr

/-- Handlers for the three channel clients, supplied by their modules
(global from rdp-rs; rdpdr and cliprdr from modules not under src/); each
consumes the channel payload and yields the updated state plus the produced
artifacts, or a protocol error. -/
structure DispatchEnv where
  globalHandle : RdpClient → List Nat → Except RdpError (RdpClient × List ChannelOutput)
  rdpdrReadAndReply : RdpClient → List Nat → Except RdpError (RdpClient × List ChannelOutput)
  cliprdrReadAndReply : CliprdrClient → List Nat → Except RdpError (CliprdrClient × List ChannelOutput)

/-- RdpClient::read from lib.rs: demultiplex one MCS PDU by channel name, in
source order: `"global"`, rdpdr, cliprdr (a missing cliprdr client yields
`Ok(())`), rdpsnd (dropped with a debug log), and otherwise an
`UnexpectedType` protocol error. -/
def rdpClientRead (env : DispatchEnv) (st : RdpClient)
    (channelName : String) (message : List Nat) :
    Except RdpError (RdpClient × List ChannelOutput) :=
  if channelName = "global" then env.globalHandle st message
  else if channelName = rdpdrChannelName then env.rdpdrReadAndReply st message
  else if channelName = cliprdrChannelName then
    match st.cliprdr with
    | some clip =>
      match env.cliprdrReadAndReply clip message with
      | Except.ok (clip2, outs) => Except.ok ({ st with cliprdr := some clip2 }, outs)
      | Except.error e => Except.error e
    | none => Except.ok (st, [])
  else if channelName = RDPSND_CHANNEL_NAME then Except.ok (st, [])
  else
    Except.error (RdpError.RdpError RdpErrorKind.UnexpectedType
      ("Invalid channel name " ++ channelName))

/-! ## Clipboard update (update_clipboard) -/

/-- External calls made by update_clipboard: `String::from_utf8_lossy`
(std), `clip.update_clipboard` (cliprdr module, producing the outbound
messages), and `mcs.write` for each message. -/
structure ClipEnv where
  utf8Lossy : List Nat → String
  clipUpdate : CliprdrClient → String → Except RdpError (CliprdrClient × List (List Nat))
  mcsWrite : List Nat → Except RdpError Unit

/-- The message-writing loop of update_clipboard: write each message in
order, stopping at the first failure. Returns the messages written and
whether a write failed. -/
def writeMessages (env : ClipEnv) : List (List Nat) → List (List Nat) × Bool
  | [] => ([], false)
  | m :: ms =>
    match env.mcsWrite m with
    | Except.error _ => ([], true)
    | Except.ok _ =>
      let r := writeMessages env ms
      (m :: r.1, r.2)

/-- The observable result of update_clipboard: the error code, the session
handle afterwards, and the PDUs written to the transport. -/
structure UpdateClipboardResult where
  code : CGOErrCode
  client : Option Client
  written : List (List Nat)
deriving DecidableEq, Repr

/-- update_clipboard from lib.rs: a null pointer fails; with no cliprdr
client the call returns success untouched; otherwise the messages produced
by the staged update are written in order and any failure maps to the
failure code. -/
def update_clipboard (env : ClipEnv) (clientPtr : Option Client)
    (data : List Nat) : UpdateClipboardResult :=
  match clientPtr with
  | none => { code := CGOErrCode.ErrCodeFailure, client := none, written := [] }
  | some client =>
    match client.rdpClient.cliprdr with
    | some clip =>
      match env.clipUpdate clip (env.utf8Lossy data) with
      | Except.ok (clip2, messages) =>
        let r := writeMessages env messages
        let client2 : Client :=
          { client with rdpClient := { client.rdpClient with cliprdr := some clip2 } }
        if r.2 then
          { code := CGOErrCode.ErrCodeFailure, client := some client2, written := r.1 }
        else
          { code := CGOErrCode.ErrCodeSuccess, client := some client2, written := r.1 }
      | Except.error _ =>
        { code := CGOErrCode.ErrCodeFailure, client := some client, written := [] }
    | none => { code := CGOErrCode.ErrCodeSuccess, client := some client, written := [] }

/-! ## TDP request/response types and the outbound info-request callback -/

/-- SharedDirectoryInfoRequest from lib.rs. -/
structure SharedDirectoryInfoRequest where
  completion_id : Nat
  directory_id : Nat
  path : UnixPath
deriving DecidableEq, Repr

/-- CGOSharedDirectoryInfoRequest from lib.rs; the `path` pointer carries the
bytes of the C string. -/
structure CGOSharedDirectoryInfoRequest where
  completion_id : Nat
  directory_id : Nat
  path : List Nat
deriving DecidableEq, Repr

/-- The `tdp_sd_info_request` closure installed by connect_rdp_inner: convert
`req.path` to a C string (an embedded NUL makes this fail with a `TryError`),
call the host-side `tdp_sd_info_request`, and turn a host failure into a
`TryError`. -/
def tdp_sd_info_request_callback
    (hostInfoRequest : CGOSharedDirectoryInfoRequest → CGOErrCode)
    (req : SharedDirectoryInfoRequest) : Except RdpError Unit :=
  match req.path.to_cstring with
  | some c_string =>
    if hostInfoRequest
        { completion_id := req.completion_id
          directory_id := req.directory_id
          path := c_string } ≠ CGOErrCode.ErrCodeSuccess then
      Except.error (RdpError.TryError "call to tdp_sd_info_request failed")
    else Except.ok ()
  | none =>
    Except.error (RdpError.TryError
      ("path contained characters that could not be converted to a C string: "
        ++ toString (repr req.path)))

/-- What the rdpdr drive bridge does with one device I/O request, as far as
the pump loop can observe. -/
inductive RdpdrIoOutcome
  | errorReply
  | tdpRequestSent
deriving DecidableEq, Repr

/-- Modelled from the spec: how the rdpdr module (not under src/) consumes
the result of an outbound TDP request callback. Per the spec, a path that
cannot be encoded "cause[s] the corresponding RDP request to fail with an
internal error; the session continues": a callback error is turned into an
RDP error-status reply and the dispatch itself returns `Ok`, so the pump
loop keeps running. -/
def rdpdrConsumeCallbackResult (r : Except RdpError Unit) :
    Except RdpError RdpdrIoOutcome :=
  match r with
  | Except.error _ => Except.ok RdpdrIoOutcome.errorReply
  | Except.ok _ => Except.ok RdpdrIoOutcome.tdpRequestSent

/-! ## Host-callable facade -/

/-- CGOPointerButton from lib.rs. -/
inductive CGOPointerButton
  | PointerButtonNone
  | PointerButtonLeft
  | PointerButtonRight
  | PointerButtonMiddle
deriving DecidableEq, Repr

/-- CGOPointerWheel from lib.rs. -/
inductive CGOPointerWheel
  | PointerWheelNone
  | PointerWheelVertical
  | PointerWheelHorizontal
deriving DecidableEq, Repr

/-- CGOMousePointerEvent from lib.rs. -/
structure CGOMousePointerEvent where
  x : Nat
  y : Nat
  button : CGOPointerButton
  down : Bool
  wheel : CGOPointerWheel
  wheel_delta : Int
deriving DecidableEq, Repr

/-- CGOKeyboardEvent from lib.rs. -/
structure CGOKeyboardEvent where
  code : Nat
  down : Bool
deriving DecidableEq, Repr

/-- CGOSharedDirectoryAnnounce from lib.rs (name already copied out of the
C string). -/
structure SharedDirectoryAnnounce where
  directory_id : Nat
  name : String
deriving DecidableEq, Repr

/-- FileSystemObject from lib.rs. -/
structure FileSystemObject where
  last_modified : Nat
  size : Nat
  file_type : FileType
  path : UnixPath
deriving DecidableEq, Repr

/-- SharedDirectoryInfoResponse from lib.rs. -/
structure SharedDirectoryInfoResponse where
  completion_id : Nat
  err_code : TdpErrCode
  fso : FileSystemObject
deriving DecidableEq, Repr

/-- SharedDirectoryCreateResponse from lib.rs. -/
structure SharedDirectoryCreateResponse where
  completion_id : Nat
  err_code : TdpErrCode
  fso : FileSystemObject
deriving DecidableEq, Repr

/-- SharedDirectoryDeleteResponse from lib.rs. -/
structure SharedDirectoryDeleteResponse where
  completion_id : Nat
  err_code : TdpErrCode
deriving DecidableEq, Repr

/-- SharedDirectoryListResponse from lib.rs. -/
structure SharedDirectoryListResponse where
  completion_id : Nat
  err_code : TdpErrCode
  fso_list : List FileSystemObject
deriving DecidableEq, Repr

/-- SharedDirectoryReadResponse from lib.rs. -/
structure SharedDirectoryReadResponse where
  completion_id : Nat
  err_code : TdpErrCode
  read_data : List Nat
deriving DecidableEq, Repr

/-- SharedDirectoryWriteResponse from lib.rs. -/
structure SharedDirectoryWriteResponse where
  completion_id : Nat
  err_code : TdpErrCode
  bytes_written : Nat
deriving DecidableEq, Repr

/-- SharedDirectoryMoveResponse from lib.rs. -/
structure SharedDirectoryMoveResponse where
  completion_id : Nat
  err_code : TdpErrCode
deriving DecidableEq, Repr

/-- The session-level operations the facade functions forward to (RdpClient
methods whose substance lives in rdp-rs and in the channel modules). Each
takes the current stack state and yields the updated state or an error. -/
structure SessionEnv where
  writePointer : RdpClient → CGOMousePointerEvent → Except RdpError RdpClient
  writeKeyboard : RdpClient → CGOKeyboardEvent → Except RdpError RdpClient
  writeDeviceListAnnounce : RdpClient → Nat → String → Except RdpError RdpClient
  tdpInfoResponse : RdpClient → SharedDirectoryInfoResponse → Except RdpError RdpClient
  tdpCreateResponse : RdpClient → SharedDirectoryCreateResponse → Except RdpError RdpClient
  tdpDeleteResponse : RdpClient → SharedDirectoryDeleteResponse → Except RdpError RdpClient
  tdpListResponse : RdpClient → SharedDirectoryListResponse → Except RdpError RdpClient
  tdpReadResponse : RdpClient → SharedDirectoryReadResponse → Except RdpError RdpClient
  tdpWriteResponse : RdpClient → SharedDirectoryWriteResponse → Except RdpError RdpClient
  tdpMoveResponse : RdpClient → SharedDirectoryMoveResponse → Except RdpError RdpClient
  mcsShutdown : RdpClient → Except RdpError RdpClient
  tcpShutdownBoth : Except IoError Unit

/-- The common facade shape: null pointer fails untouched; otherwise run the
session operation under the lock, mapping its result to an error code. -/
def facadeCall (op : RdpClient → Except RdpError RdpClient)
    (clientPtr : Option Client) : CGOErrCode × Option Client :=
  match clientPtr with
  | none => (CGOErrCode.ErrCodeFailure, none)
  | some client =>
    match op client.rdpClient with
    | Except.ok st => (CGOErrCode.ErrCodeSuccess, some { client with rdpClient := st })
    | Except.error _ => (CGOErrCode.ErrCodeFailure, some client)

/-- write_rdp_pointer from lib.rs. -/
def write_rdp_pointer (env : SessionEnv) (clientPtr : Option Client)
    (pointer : CGOMousePointerEvent) : CGOErrCode × Option Client :=
  facadeCall (fun st => env.writePointer st pointer) clientPtr

/-- write_rdp_keyboard from lib.rs. -/
def write_rdp_keyboard (env : SessionEnv) (clientPtr : Option Client)
    (key : CGOKeyboardEvent) : CGOErrCode × Option Client :=
  facadeCall (fun st => env.writeKeyboard st key) clientPtr

/-- handle_tdp_sd_announce from lib.rs: convert the announce, build the
drive-announce PDU and write it. -/
def handle_tdp_sd_announce (env : SessionEnv) (clientPtr : Option Client)
    (sd_announce : SharedDirectoryAnnounce) : CGOErrCode × Option Client :=
  facadeCall
    (fun st => env.writeDeviceListAnnounce st sd_announce.directory_id sd_announce.name)
    clientPtr

/-- handle_tdp_sd_info_response from lib.rs. -/
def handle_tdp_sd_info_response (env : SessionEnv) (clientPtr : Option Client)
    (res : SharedDirectoryInfoResponse) : CGOErrCode × Option Client :=
  facadeCall (fun st => env.tdpInfoResponse st res) clientPtr

/-- handle_tdp_sd_create_response from lib.rs. -/
def handle_tdp_sd_create_response (env : SessionEnv) (clientPtr : Option Client)
    (res : SharedDirectoryCreateResponse) : CGOErrCode × Option Client :=
  facadeCall (fun st => env.tdpCreateResponse st res) clientPtr

/-- handle_tdp_sd_delete_response from lib.rs. -/
def handle_tdp_sd_delete_response (env : SessionEnv) (clientPtr : Option Client)
    (res : SharedDirectoryDeleteResponse) : CGOErrCode × Option Client :=
  facadeCall (fun st => env.tdpDeleteResponse st res) clientPtr

/-- handle_tdp_sd_list_response from lib.rs. -/
def handle_tdp_sd_list_response (env : SessionEnv) (clientPtr : Option Client)
    (res : SharedDirectoryListResponse) : CGOErrCode × Option Client :=
  facadeCall (fun st => env.tdpListResponse st res) clientPtr

/-- handle_tdp_sd_read_response from lib.rs. -/
def handle_tdp_sd_read_response (env : SessionEnv) (clientPtr : Option Client)
    (res : SharedDirectoryReadResponse) : CGOErrCode × Option Client :=
  facadeCall (fun st => env.tdpReadResponse st res) clientPtr

/-- handle_tdp_sd_write_response from lib.rs. -/
def handle_tdp_sd_write_response (env : SessionEnv) (clientPtr : Option Client)
    (res : SharedDirectoryWriteResponse) : CGOErrCode × Option Client :=
  facadeCall (fun st => env.tdpWriteResponse st res) clientPtr

/-- handle_tdp_sd_move_response from lib.rs. -/
def handle_tdp_sd_move_response (env : SessionEnv) (clientPtr : Option Client)
    (res : SharedDirectoryMoveResponse) : CGOErrCode × Option Client :=
  facadeCall (fun st => env.tdpMoveResponse st res) clientPtr

/-- close_rdp from lib.rs: null pointer fails; otherwise run `mcs.shutdown`
(recording its error code), then shut the TCP socket down in both
directions; a socket-shutdown failure overrides the code with failure. -/
def close_rdp (env : SessionEnv) (clientPtr : Option Client) :
    CGOErrCode × Option Client :=
  match clientPtr with
  | none => (CGOErrCode.ErrCodeFailure, none)
  | some client =>
    let mcsRes :=
      match env.mcsShutdown client.rdpClient with
      | Except.error _ => (CGOErrCode.ErrCodeFailure, client.rdpClient)
      | Except.ok st => (CGOErrCode.ErrCodeSuccess, st)
    let client2 : Client := { client with rdpClient := mcsRes.2 }
    match env.tcpShutdownBoth with
    | Except.error _ => (CGOErrCode.ErrCodeFailure, some client2)
    | Except.ok _ => (mcsRes.1, some client2)

/-! ## Helper lemmas -/

theorem decimalChars_length_le (n : Nat) (h : n ≤ 99999999) :
    (decimalChars n).length ≤ 8 := by
  unfold decimalChars
  rw [List.length_reverse, List.length_map]
  rcases Nat.eq_zero_or_pos n with h0 | h0
  · simp [h0]
  · have hn : n ≠ 0 := Nat.pos_iff_ne_zero.mp h0
    rw [Nat.digits_len 10 n (by norm_num) hn]
    have hlt : n < 10 ^ 8 := lt_of_le_of_lt h (by norm_num)
    have hlog : Nat.log 10 n < 8 := Nat.log_lt_of_lt_pow hn hlt
    omega

theorem decimalChars_are_digits (n : Nat) :
    ∀ c ∈ decimalChars n, c.isDigit = true := by
  intro c hc
  unfold decimalChars at hc
  rw [List.mem_reverse] at hc
  obtain ⟨d, hd, rfl⟩ := List.mem_map.mp hc
  have hdlt : d < 10 := Nat.digits_lt_base (by norm_num) hd
  interval_cases d <;> decide

/-- C3. The smartcard PIN generated during connect is always exactly eight
decimal digits: formatting any draw in the inclusive range 0 to 99999999
with zero-padding to width 8 yields a string of length 8 whose characters
are all decimal digits. -/
theorem pin_always_eight_digits (n : Nat) (h : n ≤ 99999999) :
    (pinString n).length = 8 ∧ allDigits (pinString n) = true := by
  have hlen := decimalChars_length_le n h
  constructor
  · show (String.mk (List.replicate (8 - (decimalChars n).length) '0' ++ decimalChars n)).length = 8
    simp [String.length]
    omega
  · unfold allDigits pinString
    rw [List.all_eq_true]
    intro c hc
    rcases List.mem_append.mp hc with h1 | h1
    · rw [List.eq_of_mem_replicate h1]
      decide
    · exact decimalChars_are_digits n c h1

/-- Witness for C3 at the concrete draw 42. -/
theorem pin_always_eight_digits_witness :
    (pinString 42).length = 8 ∧ allDigits (pinString 42) = true :=
  pin_always_eight_digits 42 (by norm_num)

/-- C10. Every host-callable operation that takes a session handle, given a
null client pointer, returns the Failure error code without touching any
session state. -/
theorem null_client_pointer_fails (hb : CGOBitmap → CGOErrCode)
    (trace : List ReadOutcome) (env : SessionEnv) (cenv : ClipEnv)
    (p : CGOMousePointerEvent) (k : CGOKeyboardEvent) (data : List Nat)
    (a : SharedDirectoryAnnounce)
    (r1 : SharedDirectoryInfoResponse) (r2 : SharedDirectoryCreateResponse)
    (r3 : SharedDirectoryDeleteResponse) (r4 : SharedDirectoryListResponse)
    (r5 : SharedDirectoryReadResponse) (r6 : SharedDirectoryWriteResponse)
    (r7 : SharedDirectoryMoveResponse) :
    read_rdp_output hb none trace = CGOErrCode.ErrCodeFailure ∧
    write_rdp_pointer env none p = (CGOErrCode.ErrCodeFailure, none) ∧
    write_rdp_keyboard env none k = (CGOErrCode.ErrCodeFailure, none) ∧
    update_clipboard cenv none data =
      { code := CGOErrCode.ErrCodeFailure, client := none, written := [] } ∧
    handle_tdp_sd_announce env none a = (CGOErrCode.ErrCodeFailure, none) ∧
    handle_tdp_sd_info_response env none r1 = (CGOErrCode.ErrCodeFailure, none) ∧
    handle_tdp_sd_create_response env none r2 = (CGOErrCode.ErrCodeFailure, none) ∧
    handle_tdp_sd_delete_response env none r3 = (CGOErrCode.ErrCodeFailure, none) ∧
    handle_tdp_sd_list_response env none r4 = (CGOErrCode.ErrCodeFailure, none) ∧
    handle_tdp_sd_read_response env none r5 = (CGOErrCode.ErrCodeFailure, none) ∧
    handle_tdp_sd_write_response env none r6 = (CGOErrCode.ErrCodeFailure, none) ∧
    handle_tdp_sd_move_response env none r7 = (CGOErrCode.ErrCodeFailure, none) ∧
    close_rdp env none = (CGOErrCode.ErrCodeFailure, none) :=
  ⟨rfl, rfl, rfl, rfl, rfl, rfl, rfl, rfl, rfl, rfl, rfl, rfl, rfl⟩

/-- C4. A PDU on the rdpsnd channel is dropped (returns Ok with no output
and no state change) and a PDU on any channel other than global, rdpdr,
cliprdr, or rdpsnd yields an UnexpectedType protocol error. -/
theorem rdpsnd_dropped_unknown_rejected (env : DispatchEnv) (st : RdpClient)
    (message : List Nat) :
    rdpClientRead env st "rdpsnd" message = Except.ok (st, []) ∧
    (∀ name, name ≠ "global" → name ≠ rdpdrChannelName → name ≠ cliprdrChannelName →
      name ≠ RDPSND_CHANNEL_NAME →
      rdpClientRead env st name message =
        Except.error (RdpError.RdpError RdpErrorKind.UnexpectedType
          ("Invalid channel name " ++ name))) := by
  constructor
  · rw [rdpClientRead]
    rw [if_neg (by decide), if_neg (by decide), if_neg (by decide),
      if_pos (by decide)]
  · intro name h1 h2 h3 h4
    rw [rdpClientRead, if_neg h1, if_neg h2, if_neg h3, if_neg h4]

/-- Trivial channel handlers: every channel client accepts its payload and
produces nothing. -/
def dispatchEnvTrivial : DispatchEnv :=
  { globalHandle := fun st _ => Except.ok (st, [])
    rdpdrReadAndReply := fun st _ => Except.ok (st, [])
    cliprdrReadAndReply := fun clip _ => Except.ok (clip, []) }

/-- A concrete session stack with the clipboard disabled. -/
def clientStateNoClip : RdpClient :=
  { global := { userId := 1, globalChannelId := 1003, width := 1920, height := 1080 }
    rdpdr := { pin := "00000042", allow_directory_sharing := true }
    cliprdr := none }

/-- A concrete session handle with the clipboard disabled. -/
def clientNoClip : Client :=
  { rdpClient := clientStateNoClip, tcp_fd := 5, go_ref := 6 }

/-- Witness for C4 at the concrete unknown channel name "drdynvc". -/
theorem rdpsnd_dropped_unknown_rejected_witness :
    rdpClientRead dispatchEnvTrivial clientStateNoClip "drdynvc" [] =
      Except.error (RdpError.RdpError RdpErrorKind.UnexpectedType
        ("Invalid channel name " ++ "drdynvc")) :=
  (rdpsnd_dropped_unknown_rejected dispatchEnvTrivial clientStateNoClip []).2
    "drdynvc" (by decide) (by decide) (by decide) (by decide)

/-- C5. With the clipboard disabled at connect time (cliprdr client absent),
update_clipboard returns Success without writing any PDU and without
changing session state, and an inbound cliprdr PDU dispatches to Ok with no
output. -/
theorem clipboard_disabled_is_noop (cenv : ClipEnv) (denv : DispatchEnv)
    (client : Client) (data : List Nat) (message : List Nat)
    (h : client.rdpClient.cliprdr = none) :
    update_clipboard cenv (some client) data =
      { code := CGOErrCode.ErrCodeSuccess, client := some client, written := [] } ∧
    rdpClientRead denv client.rdpClient cliprdrChannelName message =
      Except.ok (client.rdpClient, []) := by
  constructor
  · rw [update_clipboard]
    simp only [h]
  · rw [rdpClientRead, if_neg (by decide), if_neg (by decide), if_pos rfl]
    simp only [h]

/-- Trivial clipboard environment. -/
def clipEnvTrivial : ClipEnv :=
  { utf8Lossy := fun _ => ""
    clipUpdate := fun clip _ => Except.ok (clip, [])
    mcsWrite := fun _ => Except.ok () }

/-- Witness for C5 on a concrete clipboard-disabled session. -/
theorem clipboard_disabled_is_noop_witness :
    update_clipboard clipEnvTrivial (some clientNoClip) [104, 105] =
      { code := CGOErrCode.ErrCodeSuccess, client := some clientNoClip, written := [] } ∧
    rdpClientRead dispatchEnvTrivial clientNoClip.rdpClient cliprdrChannelName [1] =
      Except.ok (clientNoClip.rdpClient, []) :=
  clipboard_disabled_is_noop clipEnvTrivial dispatchEnvTrivial clientNoClip
    [104, 105] [1] rfl

/-- C6. A drive-redirection path with an embedded NUL byte cannot be encoded
as a C string: the outbound TDP info-request callback returns an internal
TryError, and (per the spec-modelled rdpdr handling) the RDP request fails
with an error reply while the session continues. -/
theorem nul_path_fails_request_session_continues
    (hostInfoRequest : CGOSharedDirectoryInfoRequest → CGOErrCode)
    (req : SharedDirectoryInfoRequest) (h : 0 ∈ req.path.bytes) :
    tdp_sd_info_request_callback hostInfoRequest req =
      Except.error (RdpError.TryError
        ("path contained characters that could not be converted to a C string: "
          ++ toString (repr req.path))) ∧
    rdpdrConsumeCallbackResult (tdp_sd_info_request_callback hostInfoRequest req) =
      Except.ok RdpdrIoOutcome.errorReply := by
  have hcs : req.path.to_cstring = none := by
    rw [UnixPath.to_cstring, if_pos h]
  constructor
  · rw [tdp_sd_info_request_callback, hcs]
  · rw [tdp_sd_info_request_callback, hcs]
    rfl

/-- A host callback that always succeeds. -/
def hostInfoOk : CGOSharedDirectoryInfoRequest → CGOErrCode :=
  fun _ => CGOErrCode.ErrCodeSuccess

/-- A concrete info request whose path has an embedded NUL byte. -/
def nulPathReq : SharedDirectoryInfoRequest :=
  { completion_id := 1, directory_id := 2, path := { bytes := [47, 0, 97] } }

/-- Witness for C6 on the concrete NUL-bearing path. -/
theorem nul_path_witness :
    rdpdrConsumeCallbackResult (tdp_sd_info_request_callback hostInfoOk nulPathReq) =
      Except.ok RdpdrIoOutcome.errorReply :=
  (nul_path_fails_request_session_continues hostInfoOk nulPathReq (by decide)).2

theorem pumpCallbackStep_fixed (hb : CGOBitmap → CGOErrCode)
    (st : PumpCallbackState) (hst : st.err ≠ CGOErrCode.ErrCodeSuccess) :
    ∀ l : List RdpEvent, l.foldl (pumpCallbackStep hb) st = st := by
  intro l
  induction l with
  | nil => rfl
  | cons a l ih =>
    have hstep : pumpCallbackStep hb st a = st := by
      simp [pumpCallbackStep, hst]
    rw [List.foldl_cons, hstep]
    exact ih

theorem inner_skips_clean_prefix (hb : CGOBitmap → CGOErrCode)
    (pre rest : List ReadOutcome) (hpre : ∀ x ∈ pre, cleanIteration hb x) :
    read_rdp_output_inner hb (pre ++ rest) = read_rdp_output_inner hb rest := by
  induction pre with
  | nil => rfl
  | cons o pre ih =>
    obtain ⟨hres, herr⟩ := hpre o (List.mem_cons_self o pre)
    have hrest : ∀ x ∈ pre, cleanIteration hb x :=
      fun x hx => hpre x (List.mem_cons_of_mem o hx)
    rw [List.cons_append, read_rdp_output_inner, hres]
    simp only [herr, ne_eq, not_true_eq_false, if_false]
    exact ih hrest

/-- C2. In any run of the pump loop whose earlier iterations were clean, a
read failing with an UnexpectedEof I/O error makes read_rdp_output_inner
return None (no error message) and read_rdp_output return Success, while a
read failing with any other error makes read_rdp_output_inner return the
formatted error string and read_rdp_output return Failure. -/
theorem eof_ends_pump_cleanly (hb : CGOBitmap → CGOErrCode) (c : Client)
    (pre : List ReadOutcome) (o : ReadOutcome) (rest : List ReadOutcome)
    (hpre : ∀ x ∈ pre, cleanIteration hb x) :
    (∀ ioe, o.result = Except.error (RdpError.Io ioe) →
      ioe.kind = IoErrorKind.UnexpectedEof →
      read_rdp_output_inner hb (pre ++ o :: rest) = none ∧
      read_rdp_output hb (some c) (pre ++ o :: rest) = CGOErrCode.ErrCodeSuccess) ∧
    (∀ e, o.result = Except.error e →
      (∀ ioe, e = RdpError.Io ioe → ioe.kind ≠ IoErrorKind.UnexpectedEof) →
      read_rdp_output_inner hb (pre ++ o :: rest) = some (rdpReadFailedMsg e) ∧
      read_rdp_output hb (some c) (pre ++ o :: rest) = CGOErrCode.ErrCodeFailure) := by
  have hskip := inner_skips_clean_prefix hb pre (o :: rest) hpre
  constructor
  · intro ioe hres hkind
    have hinner : read_rdp_output_inner hb (pre ++ o :: rest) = none := by
      rw [hskip, read_rdp_output_inner, hres]
      simp [hkind]
    refine ⟨hinner, ?_⟩
    rw [read_rdp_output, hinner]
  · intro e hres hne
    have hinner : read_rdp_output_inner hb (pre ++ o :: rest) = some (rdpReadFailedMsg e) := by
      rw [hskip, read_rdp_output_inner, hres]
      cases e with
      | Io ioe =>
        have hk : ioe.kind ≠ IoErrorKind.UnexpectedEof := hne ioe rfl
        simp [hk]
      | RdpError kind message => rfl
      | TryError message => rfl
    refine ⟨hinner, ?_⟩
    rw [read_rdp_output, hinner]

/-- A pump handler that forwards every bitmap successfully. -/
def hbOk : CGOBitmap → CGOErrCode := fun _ => CGOErrCode.ErrCodeSuccess

/-- A read outcome that fails with UnexpectedEof before delivering events. -/
def eofOutcome : ReadOutcome :=
  { events := [], result := Except.error (RdpError.Io { kind := IoErrorKind.UnexpectedEof }) }

/-- Witness for C2 on a one-iteration trace ending in UnexpectedEof. -/
theorem eof_ends_pump_cleanly_witness :
    read_rdp_output_inner hbOk [eofOutcome] = none ∧
    read_rdp_output hbOk (some clientNoClip) [eofOutcome] = CGOErrCode.ErrCodeSuccess :=
  (eof_ends_pump_cleanly hbOk clientNoClip [] eofOutcome []
      (fun x hx => absurd hx (List.not_mem_nil x))).1
    { kind := IoErrorKind.UnexpectedEof } rfl rfl

/-- C8. If handle_bitmap returns Failure for a frame of the current PDU
batch, no later bitmap of that batch is forwarded to the host, the pump
loop returns an error message right after the current PDU (regardless of
any remaining trace), and read_rdp_output returns Failure. The hypothesis
on `o.result` records that an UnexpectedEof arises while reading the PDU
itself, before any event is delivered to the callback. -/
theorem bitmap_failure_stops_forwarding (hb : CGOBitmap → CGOErrCode) (c : Client)
    (pre : List ReadOutcome) (o : ReadOutcome) (rest : List ReadOutcome)
    (evs1 evs2 : List RdpEvent) (b : BitmapEvent) (cb : CGOBitmap)
    (hpre : ∀ x ∈ pre, cleanIteration hb x)
    (hev : o.events = evs1 ++ RdpEvent.Bitmap b :: evs2)
    (h1 : (pumpCallbackRun hb evs1).err = CGOErrCode.ErrCodeSuccess)
    (hcv : cgoBitmapTryFrom b = Except.ok cb)
    (hfail : hb cb = CGOErrCode.ErrCodeFailure)
    (heof : ∀ ioe, o.result = Except.error (RdpError.Io ioe) →
      ioe.kind ≠ IoErrorKind.UnexpectedEof) :
    (pumpCallbackRun hb o.events).forwarded =
      (pumpCallbackRun hb evs1).forwarded ++ [cb] ∧
    (read_rdp_output_inner hb (pre ++ o :: rest)).isSome = true ∧
    read_rdp_output hb (some c) (pre ++ o :: rest) = CGOErrCode.ErrCodeFailure := by
  have hstep : pumpCallbackStep hb (pumpCallbackRun hb evs1) (RdpEvent.Bitmap b) =
      { err := CGOErrCode.ErrCodeFailure
        forwarded := (pumpCallbackRun hb evs1).forwarded ++ [cb] } := by
    simp [pumpCallbackStep, h1, hcv, hfail]
  have hrun : pumpCallbackRun hb o.events =
      { err := CGOErrCode.ErrCodeFailure
        forwarded := (pumpCallbackRun hb evs1).forwarded ++ [cb] } := by
    rw [hev]
    show List.foldl (pumpCallbackStep hb)
      { err := CGOErrCode.ErrCodeSuccess, forwarded := [] }
      (evs1 ++ RdpEvent.Bitmap b :: evs2) = _
    rw [List.foldl_append, List.foldl_cons]
    show List.foldl (pumpCallbackStep hb)
      (pumpCallbackStep hb (pumpCallbackRun hb evs1) (RdpEvent.Bitmap b)) evs2 = _
    rw [hstep]
    exact pumpCallbackStep_fixed hb _ (by simp) evs2
  have hskip := inner_skips_clean_prefix hb pre (o :: rest) hpre
  have hinner : (read_rdp_output_inner hb (pre ++ o :: rest)).isSome = true := by
    rw [hskip, read_rdp_output_inner]
    cases hres : o.result with
    | ok u =>
      simp only [hrun, hres]
      rfl
    | error e =>
      cases e with
      | Io ioe =>
        have hk := heof ioe hres
        simp only [hk, if_neg hk]
        rfl
      | RdpError kind message => rfl
      | TryError message => rfl
  refine ⟨by rw [hrun], hinner, ?_⟩
  rw [read_rdp_output]
  cases hsome : read_rdp_output_inner hb (pre ++ o :: rest) with
  | none => rw [hsome] at hinner; exact absurd hinner (by simp)
  | some msg => rfl

/-- Witness data: a read outcome whose single bitmap the host rejects. -/
def hbFail : CGOBitmap → CGOErrCode := fun _ => CGOErrCode.ErrCodeFailure

/-- A concrete uncompressed bitmap event. -/
def bitmapEv0 : BitmapEvent :=
  { dest_left := 0, dest_top := 0, dest_right := 63, dest_bottom := 63
    is_compress := false, data := [7, 7], decompressResult := Except.ok [] }

/-- The CGO conversion of `bitmapEv0`. -/
def cgoBitmap0 : CGOBitmap :=
  { dest_left := 0, dest_top := 0, dest_right := 63, dest_bottom := 63, data := [7, 7] }

/-- A pump iteration delivering one bitmap and then returning Ok. -/
def bitmapOutcome0 : ReadOutcome :=
  { events := [RdpEvent.Bitmap bitmapEv0], result := Except.ok () }

/-- Witness for C8 on a one-iteration trace whose bitmap the host rejects. -/
theorem bitmap_failure_stops_forwarding_witness :
    (pumpCallbackRun hbFail bitmapOutcome0.events).forwarded =
      (pumpCallbackRun hbFail []).forwarded ++ [cgoBitmap0] ∧
    (read_rdp_output_inner hbFail ([] ++ bitmapOutcome0 :: [])).isSome = true ∧
    read_rdp_output hbFail (some clientNoClip) ([] ++ bitmapOutcome0 :: []) =
      CGOErrCode.ErrCodeFailure :=
  bitmap_failure_stops_forwarding hbFail clientNoClip [] bitmapOutcome0 []
    [] [] bitmapEv0 cgoBitmap0
    (fun x hx => absurd hx (List.not_mem_nil x)) rfl rfl rfl rfl
    (fun _ h => Except.noConfusion h)

/-- C1. Any failing step of connection bring-up aborts the whole bring-up:
the connect result is Ok exactly when every step succeeded (so no session
handle is ever produced from a partially completed bring-up), every failure
is one of the three ConnectError kinds by construction, and a failed result
converts to a ClientOrError with a null client pointer and the Failure
code. -/
theorem connect_failure_propagates (env : ConnectEnv) (go_ref : Nat)
    (params : ConnectParams) :
    ((∃ c, (connect_rdp_inner env go_ref params).result = Except.ok c) ↔
      allStepsOk env params) ∧
    (∀ e, (connect_rdp_inner env go_ref params).result = Except.error e →
      clientOrErrorFrom (connect_rdp_inner env go_ref params).result =
        { client := none, err := CGOErrCode.ErrCodeFailure }) := by
  constructor
  · unfold connect_rdp_inner allStepsOk
    cases h1 : env.toSocketAddrs with
    | error e1 => simp [h1]
    | ok addrs =>
      cases h2 : addrs.head? with
      | none => simp [h1, h2]
      | some addr =>
        cases h3 : env.connectTimeout addr with
        | error e3 => simp [h1, h2, h3]
        | ok fd =>
          cases h4 : env.setReadTimeout (some 10) with
          | error e4 => simp [h1, h2, h3, h4]
          | ok u4 =>
            cases h5 : env.x224Connect with
            | error e5 => simp [h1, h2, h3, h4, h5]
            | ok u5 =>
              cases h6 : env.mcsConnect (mcsArgs params) with
              | error e6 => simp [h1, h2, h3, h4, h5, h6]
              | ok ids =>
                cases h7 : env.secConnect "." params.username (pinString env.pinDraw) with
                | error e7 => simp [h1, h2, h3, h4, h5, h6, h7]
                | ok u7 =>
                  cases h8 : env.setReadTimeout none with
                  | error e8 => simp [h1, h2, h3, h4, h5, h6, h7, h8]
                  | ok u8 => simp [h1, h2, h3, h4, h5, h6, h7, h8]
  · intro e he
    rw [he]
    rfl

/-- A bring-up environment in which every external step succeeds. -/
def connectEnvOk : ConnectEnv :=
  { toSocketAddrs := Except.ok [{ addr := 0 }]
    connectTimeout := fun _ => Except.ok 7
    setReadTimeout := fun _ => Except.ok ()
    x224Connect := Except.ok ()
    mcsConnect := fun _ => Except.ok (1, 1003)
    secConnect := fun _ _ _ => Except.ok ()
    pinDraw := 12345678 }

/-- The same environment with address resolution failing. -/
def connectEnvResolveFails : ConnectEnv :=
  { connectEnvOk with
    toSocketAddrs := Except.error { kind := IoErrorKind.OtherErrorKind } }

/-- Concrete connect parameters with the clipboard enabled. -/
def paramsClip : ConnectParams :=
  { username := "alice", cert_der := [1], key_der := [2]
    screen_width := 1920, screen_height := 1080
    allow_clipboard := true, allow_directory_sharing := true }

/-- Witness for C1: a failed address resolution yields a null client and
the Failure code. -/
theorem connect_failure_propagates_witness :
    clientOrErrorFrom (connect_rdp_inner connectEnvResolveFails 0 paramsClip).result =
      { client := none, err := CGOErrCode.ErrCodeFailure } :=
  (connect_failure_propagates connectEnvResolveFails 0 paramsClip).2
    (ConnectError.Tcp { kind := IoErrorKind.OtherErrorKind }) rfl

/-- C7. Whenever connect_rdp_inner reaches its MCS connect call, the call
carries the conference string "rdp-rs", the requested desktop geometry, the
US keyboard layout, and a static channel list containing rdpdr and rdpsnd,
with cliprdr present exactly when allow_clipboard is set. -/
theorem mcs_connect_invocation (env : ConnectEnv) (go_ref : Nat)
    (params : ConnectParams) :
    ∀ a, (connect_rdp_inner env go_ref params).mcsCalledWith = some a →
      a.conference = "rdp-rs" ∧
      a.screen_width = params.screen_width ∧
      a.screen_height = params.screen_height ∧
      a.layout = KeyboardLayout.US ∧
      rdpdrChannelName ∈ a.channels ∧
      RDPSND_CHANNEL_NAME ∈ a.channels ∧
      (cliprdrChannelName ∈ a.channels ↔ params.allow_clipboard = true) := by
  intro a ha
  have hargs : a = mcsArgs params := by
    unfold connect_rdp_inner at ha
    cases h1 : env.toSocketAddrs with
    | error e1 => simp [h1] at ha
    | ok addrs =>
      cases h2 : addrs.head? with
      | none => simp [h1, h2] at ha
      | some addr =>
        cases h3 : env.connectTimeout addr with
        | error e3 => simp [h1, h2, h3] at ha
        | ok fd =>
          cases h4 : env.setReadTimeout (some 10) with
          | error e4 => simp [h1, h2, h3, h4] at ha
          | ok u4 =>
            cases h5 : env.x224Connect with
            | error e5 => simp [h1, h2, h3, h4, h5] at ha
            | ok u5 =>
              cases h6 : env.mcsConnect (mcsArgs params) with
              | error e6 =>
                simp [h1, h2, h3, h4, h5, h6] at ha
                exact ha.symm
              | ok ids =>
                cases h7 : env.secConnect "." params.username (pinString env.pinDraw) with
                | error e7 =>
                  simp [h1, h2, h3, h4, h5, h6, h7] at ha
                  exact ha.symm
                | ok u7 =>
                  cases h8 : env.setReadTimeout none with
                  | error e8 =>
                    simp [h1, h2, h3, h4, h5, h6, h7, h8] at ha
                    exact ha.symm
                  | ok u8 =>
                    simp [h1, h2, h3, h4, h5, h6, h7, h8] at ha
                    exact ha.symm
  subst hargs
  refine ⟨rfl, rfl, rfl, rfl, ?_, ?_, ?_⟩
  · show rdpdrChannelName ∈ staticChannels params
    unfold staticChannels
    exact List.mem_append_left _ (by decide)
  · show RDPSND_CHANNEL_NAME ∈ staticChannels params
    unfold staticChannels
    exact List.mem_append_left _ (by decide)
  · show cliprdrChannelName ∈ staticChannels params ↔ params.allow_clipboard = true
    cases hcb : params.allow_clipboard with
    | true => unfold staticChannels; rw [hcb]; decide
    | false => unfold staticChannels; rw [hcb]; decide

/-- Witness for C7: the successful environment reaches MCS connect with the
expected arguments. -/
theorem mcs_connect_invocation_witness :
    (mcsArgs paramsClip).conference = "rdp-rs" ∧
    (mcsArgs paramsClip).screen_width = paramsClip.screen_width ∧
    (mcsArgs paramsClip).screen_height = paramsClip.screen_height ∧
    (mcsArgs paramsClip).layout = KeyboardLayout.US ∧
    rdpdrChannelName ∈ (mcsArgs paramsClip).channels ∧
    RDPSND_CHANNEL_NAME ∈ (mcsArgs paramsClip).channels ∧
    (cliprdrChannelName ∈ (mcsArgs paramsClip).channels ↔
      paramsClip.allow_clipboard = true) :=
  mcs_connect_invocation connectEnvOk 0 paramsClip (mcsArgs paramsClip) rfl
